import Mathlib

/-!
Verification of the session-token cache of the moneris-cli repository.

The repository holds three near-duplicate TypeScript CLI variants:

* variant A: `moneris-cli-no-postman.ts`, first half ("built from REST API
  docs") — its `loadToken` uses a 60-second expiry buffer;
* variant B: `moneris-cli-no-postman.ts`, second half ("general API
  knowledge") — its `loadToken` uses no buffer;
* variant C: the `moneris-cli` Postman variant — its `loadToken` also uses
  no buffer.

The token cache is a single JSON file (`~/.moneris/token.json`).  We embed
the store as a pure function of an explicit filesystem state.  JavaScript
runtime values read back by `JSON.parse` are modelled by `JsonVal`
(JSON arrays are omitted: no code path of these CLIs writes or reads one
into the token slot), and the implicit numeric coercions performed by the
expiry comparison `Date.now() >= token.expires_at - 60000` are modelled by
`JNum` (a JavaScript number: NaN, +Infinity, -Infinity, or a finite value
held as an exact rational; see the `JNum` doc comment for the one
abstraction this makes over IEEE doubles).
-/

/-- A JavaScript value produced by `JSON.parse` (arrays omitted, see the
file header).  Object fields are listed after `JSON.parse` has collapsed
duplicate keys, so keys are distinct and lookup order is immaterial. -/
inductive JsonVal where
  | jnull
  | jbool (b : Bool)
  | jnum (n : Int)
  | jstr (s : String)
  | jobj (fields : List (String × JsonVal))

/-- A JavaScript number as it occurs in the expiry comparison: NaN,
+Infinity, -Infinity, or a finite value.  Finite values are modelled as
exact rationals rather than IEEE doubles: every number the CLIs
themselves compute is an integer epoch-millisecond or second count
(exactly representable), and the only non-integer values reachable at all
are string-coerced `expires_at` fields, whose decimal literals a double
would merely round — a difference no claim observes, since they are only
ever compared against integer thresholds. -/
inductive JNum where
  | nan
  | posInf
  | negInf
  | fin (q : ℚ)
deriving DecidableEq

/-- Numeric value of a digit character in the given radix, when it is a
valid digit of that radix. -/
def digitVal? (radix : Nat) (c : Char) : Option Nat :=
  let v : Option Nat :=
    if '0' ≤ c ∧ c ≤ '9' then some (c.toNat - 48)
    else if 'a' ≤ c ∧ c ≤ 'z' then some (c.toNat - 87)
    else if 'A' ≤ c ∧ c ≤ 'Z' then some (c.toNat - 55)
    else none
  match v with
  | some d => if d < radix then some d else none
  | none => none

/-- Value of a digit string in the given radix; `none` unless the string
is nonempty and all its characters are valid digits of that radix. -/
def radixVal? (radix : Nat) (cs : List Char) : Option Nat :=
  if cs.isEmpty then none
  else
    cs.foldl (fun acc c =>
      match acc, digitVal? radix c with
      | some a, some d => some (a * radix + d)
      | _, _ => none) (some 0)

/-- Value of a list of decimal digit characters. -/
def decDigitsVal (cs : List Char) : Nat :=
  cs.foldl (fun a c => a * 10 + (c.toNat - 48)) 0

/-- Leading- and trailing-whitespace trim on a character list, modelling
the whitespace skipping of `Number(string)` and `parseInt` (JS
StrWhiteSpace, modelled as `Char.isWhitespace`). -/
def trimChars (cs : List Char) : List Char :=
  ((cs.dropWhile Char.isWhitespace).reverse.dropWhile Char.isWhitespace).reverse

/-- Parse the optional exponent suffix of a JavaScript decimal literal:
the empty remainder means exponent 0; otherwise `e`/`E`, an optional
sign, and at least one digit must consume the whole remainder. -/
def parseExpSuffix : List Char → Option Int
  | [] => some 0
  | c :: rest =>
    if c = 'e' ∨ c = 'E' then
      let signed : Bool × List Char :=
        match rest with
        | '+' :: r => (false, r)
        | '-' :: r => (true, r)
        | r => (false, r)
      let ds := signed.2.takeWhile Char.isDigit
      if ds.isEmpty then none
      else if (signed.2.drop ds.length).isEmpty then
        some (if signed.1 then -(decDigitsVal ds : Int) else (decDigitsVal ds : Int))
      else none
    else none

/-- Parse an unsigned JavaScript decimal literal — `digits [. digits]
[exponent]` or `. digits [exponent]` — consuming the whole character
list; the value is returned as an exact rational. -/
def parseDecAbs (cs : List Char) : Option ℚ :=
  let intDigits := cs.takeWhile Char.isDigit
  let rest1 := cs.drop intDigits.length
  match rest1 with
  | '.' :: rest2 =>
    let fracDigits := rest2.takeWhile Char.isDigit
    let rest3 := rest2.drop fracDigits.length
    if intDigits.isEmpty && fracDigits.isEmpty then none
    else
      match parseExpSuffix rest3 with
      | none => none
      | some e =>
        some (((decDigitsVal intDigits : ℚ) +
          (decDigitsVal fracDigits : ℚ) / (10 : ℚ) ^ fracDigits.length) * (10 : ℚ) ^ e)
  | rest2 =>
    if intDigits.isEmpty then none
    else
      match parseExpSuffix rest2 with
      | none => none
      | some e => some ((decDigitsVal intDigits : ℚ) * (10 : ℚ) ^ e)

/-- The signed part of `Number(string)` after an optional leading sign:
the exact word "Infinity" gives the signed infinity, a full decimal
literal its (signed) value, anything else NaN. -/
def signedNumber (neg : Bool) (cs : List Char) : JNum :=
  if cs = "Infinity".toList then (if neg then .negInf else .posInf)
  else
    match parseDecAbs cs with
    | some q => .fin (if neg then -q else q)
    | none => .nan

/-- JavaScript `Number(string)` (ToNumber on a string), following the
StringNumericLiteral grammar: the trimmed empty string converts to 0; an
optional sign followed by "Infinity" or a decimal literal (with optional
fraction and exponent) converts to its value; unsigned `0x`/`0o`/`0b`
prefixed digit strings convert in the respective radix (a sign before a
radix prefix is a parse error, which the decimal branch correctly turns
into NaN); everything else converts to NaN.  Finite values are exact
rationals (see `JNum`). -/
def strToNumber (s : String) : JNum :=
  match trimChars s.toList with
  | [] => .fin 0
  | '+' :: cs => signedNumber false cs
  | '-' :: cs => signedNumber true cs
  | '0' :: 'x' :: cs | '0' :: 'X' :: cs =>
    (match radixVal? 16 cs with | some n => .fin n | none => .nan)
  | '0' :: 'o' :: cs | '0' :: 'O' :: cs =>
    (match radixVal? 8 cs with | some n => .fin n | none => .nan)
  | '0' :: 'b' :: cs | '0' :: 'B' :: cs =>
    (match radixVal? 2 cs with | some n => .fin n | none => .nan)
  | cs => signedNumber false cs

/-- JavaScript ToNumber applied to the result of a property access:
`none` is `undefined` (missing property) and converts to NaN; `null`
converts to 0; booleans to 1/0; strings via `strToNumber`; a plain object
converts via ToPrimitive to the string "[object Object]", hence NaN. -/
def toNumber : Option JsonVal → JNum
  | none => .nan
  | some .jnull => .fin 0
  | some (.jbool b) => .fin (if b then 1 else 0)
  | some (.jnum n) => .fin (n : ℚ)
  | some (.jstr s) => strToNumber s
  | some (.jobj _) => .nan

/-- JavaScript subtraction on numbers, following the IEEE table: NaN is
absorbing, an infinity minus a like-signed infinity is NaN, an infinity
minus anything else keeps its sign, a finite value minus an infinity is
the opposite infinity, and finite values subtract exactly. -/
def jsSub : JNum → JNum → JNum
  | .nan, .nan => .nan
  | .nan, .posInf => .nan
  | .nan, .negInf => .nan
  | .nan, .fin _ => .nan
  | .posInf, .nan => .nan
  | .posInf, .posInf => .nan
  | .posInf, .negInf => .posInf
  | .posInf, .fin _ => .posInf
  | .negInf, .nan => .nan
  | .negInf, .posInf => .negInf
  | .negInf, .negInf => .nan
  | .negInf, .fin _ => .negInf
  | .fin _, .nan => .nan
  | .fin _, .posInf => .negInf
  | .fin _, .negInf => .posInf
  | .fin a, .fin b => .fin (a - b)

/-- JavaScript `now >= x` where `now` is a genuine finite number
(`Date.now()`): any comparison against NaN is false, a finite value is
never at least +Infinity and always at least -Infinity, and finite
values compare exactly. -/
def jsGe (now : Int) : JNum → Bool
  | .nan => false
  | .posInf => false
  | .negInf => true
  | .fin m => decide (m ≤ (now : ℚ))

/-- Property lookup in a list of object fields (first match; keys are
distinct after `JSON.parse`, see `JsonVal`). -/
def lookupField (k : String) : List (String × JsonVal) → Option JsonVal
  | [] => none
  | (k', v) :: rest => if k' = k then some v else lookupField k rest

/-- JavaScript property access `v[k]` on a parsed JSON value that is not
`null`: on an object it looks the key up, on any primitive it yields
`undefined` (`none`).  Access on `null` throws and is handled separately
at the call site (`loadToken` wraps it in try/catch). -/
def jlookup (k : String) : JsonVal → Option JsonVal
  | .jobj fields => lookupField k fields
  | _ => none

/-- The `AuthToken` record built by `authenticate` in every variant
(interface `AuthToken` of the sources).  Timestamps are integer epoch
milliseconds, durations integer seconds. -/
structure AuthToken where
  access_token : String
  token_type : String
  expires_in : Int
  expires_at : Int

/-- `JSON.stringify` of an `AuthToken`, as re-read by `JSON.parse`: the
object with the four fields in declaration order. -/
def tokenToJson (t : AuthToken) : JsonVal :=
  .jobj [("access_token", .jstr t.access_token),
         ("token_type", .jstr t.token_type),
         ("expires_in", .jnum t.expires_in),
         ("expires_at", .jnum t.expires_at)]

/-- Contents of the single persisted token slot (`~/.moneris/token.json`)
when the file exists: `unreadable` models a file whose read fails (for
example permission denied, so `fs.readFileSync` throws), `malformed` a
readable file whose contents `JSON.parse` rejects, and `wellFormed j` a
readable file parsing to the JSON value `j`. -/
inductive FileData where
  | unreadable
  | malformed
  | wellFormed (j : JsonVal)

/-- The filesystem state the token store touches: whether the config
directory `~/.moneris` exists, the token slot (`none` = file absent), and
whether writes (directory creation and file writes) succeed.  A single
`writable` flag suffices because the CLIs only ever perform the two writes
of `saveToken`. -/
structure FsState where
  dirExists : Bool
  slot : Option FileData
  writable : Bool

/-- The storage-layer failure a denied write raises: `fs.mkdirSync` or
`fs.writeFileSync` throwing.  `saveToken` has no try/catch, so this
propagates to the caller. -/
inductive StorageError where
  | writeDenied
deriving DecidableEq

namespace NoPostmanDocs

/-- `ensureConfigDir` of variant A (`moneris-cli-no-postman.ts` lines
138-142): if the config directory does not exist, create it; a denied
`mkdirSync` throws. -/
def ensureConfigDir (s : FsState) : Except StorageError FsState :=
  if s.dirExists then .ok s
  else if s.writable then .ok ⟨true, s.slot, s.writable⟩
  else .error .writeDenied

/-- `saveToken` of variant A (lines 147-150): `ensureConfigDir()` then
`fs.writeFileSync(TOKEN_FILE, JSON.stringify(token, null, 2))`.  A denied
write throws; there is no try/catch, so the error propagates.  On success
the slot holds exactly the serialized token. -/
def saveToken (t : AuthToken) (s : FsState) : Except StorageError FsState :=
  match ensureConfigDir s with
  | .error e => .error e
  | .ok s' =>
    if s'.writable then .ok ⟨s'.dirExists, some (.wellFormed (tokenToJson t)), s'.writable⟩
    else .error .writeDenied

/-- `loadToken` of variant A (lines 155-172).  The whole body is wrapped
in try/catch returning `null`: a missing file returns `null`; a read
failure or a `JSON.parse` failure throws and is caught; on a parsed value
`token`, the check `Date.now() >= token.expires_at - 60000` returns `null`
when it holds, else the parsed value is returned as the token.  Property
access on a parsed `null` throws (caught, so `null` is returned). -/
def loadToken (s : FsState) (now : Int) : Option JsonVal :=
  match s.slot with
  | none => none
  | some .unreadable => none
  | some .malformed => none
  | some (.wellFormed .jnull) => none
  | some (.wellFormed j) =>
    if jsGe now (jsSub (toNumber (jlookup "expires_at" j)) (.fin 60000)) then none
    else some j

end NoPostmanDocs

namespace NoPostmanGeneral

/-- `loadToken` of variant B (`moneris-cli-no-postman.ts` lines 802-819,
second half): identical to variant A except the expiry check is
`Date.now() >= token.expires_at` with no buffer. -/
def loadToken (s : FsState) (now : Int) : Option JsonVal :=
  match s.slot with
  | none => none
  | some .unreadable => none
  | some .malformed => none
  | some (.wellFormed .jnull) => none
  | some (.wellFormed j) =>
    if jsGe now (toNumber (jlookup "expires_at" j)) then none
    else some j

end NoPostmanGeneral

namespace Postman

/-- `loadToken` of variant C (the `moneris-cli` Postman variant, lines
182-199): identical to variant B — expiry check `Date.now() >=
token.expires_at` with no buffer. -/
def loadToken (s : FsState) (now : Int) : Option JsonVal :=
  match s.slot with
  | none => none
  | some .unreadable => none
  | some .malformed => none
  | some (.wellFormed .jnull) => none
  | some (.wellFormed j) =>
    if jsGe now (toNumber (jlookup "expires_at" j)) then none
    else some j

end Postman

/-- JavaScript `parseInt(x)` (no radix argument): the argument — a raw
JSON field of the OAuth response — is converted to a string, trimmed, and
after an optional sign its longest leading run of digits is parsed, in
hexadecimal after a `0x`/`0X` prefix and in decimal otherwise; no digits
gives NaN.  `parseInt` always yields an integer or NaN, so NaN is
modelled as `none`.  `parseInt(undefined)`, `parseInt(null)`,
`parseInt(true)` and `parseInt` of a plain object all parse strings
("undefined", "null", ...) without leading digits and give NaN. -/
def parseIntJS : Option JsonVal → Option Int
  | none => none
  | some .jnull => none
  | some (.jbool _) => none
  | some (.jnum n) => some n
  | some (.jobj _) => none
  | some (.jstr s) =>
    let signed : Bool × List Char :=
      match trimChars s.toList with
      | '-' :: cs => (true, cs)
      | '+' :: cs => (false, cs)
      | cs => (false, cs)
    let parsed : Option Nat :=
      match signed.2 with
      | '0' :: 'x' :: cs => radixVal? 16 (cs.takeWhile fun c => (digitVal? 16 c).isSome)
      | '0' :: 'X' :: cs => radixVal? 16 (cs.takeWhile fun c => (digitVal? 16 c).isSome)
      | cs => radixVal? 10 (cs.takeWhile Char.isDigit)
    match parsed with
    | none => none
    | some n => some (if signed.1 then -(n : Int) else (n : Int))

/-- JavaScript `x || d` where `x` is the integer-or-NaN result of
`parseInt` (NaN modelled as `none`) and `d` a nonzero integer default:
NaN and 0 are falsy and give the default. -/
def jsOrNum (x : Option Int) (d : Int) : Int :=
  match x with
  | none => d
  | some 0 => d
  | some n => n

/-- JavaScript `s || d` on an optional string field: `undefined` and the
empty string are falsy and give the default. -/
def jsOrStr (v : Option String) (d : String) : String :=
  match v with
  | none => d
  | some s => if s = "" then d else s

/-- The relevant fields of the OAuth token endpoint's JSON response body
(`response.data`): `access_token` as received, `token_type` possibly
absent, and the raw `expires_in` field, which the server may send as a
number, a string, or omit. -/
structure OAuthResponse where
  access_token : String
  token_type : Option String
  expires_in : Option JsonVal

namespace NoPostmanDocs

/-- The token object built by `authenticate` in variant A (lines 310-315)
from the OAuth response at time `now = Date.now()`:
`expires_in: parseInt(response.data.expires_in) || 3600` and
`expires_at: Date.now() + ((parseInt(response.data.expires_in) || 3600) * 1000)`,
`token_type: response.data.token_type || 'Bearer'`. -/
def mkAuthToken (r : OAuthResponse) (now : Int) : AuthToken :=
  { access_token := r.access_token
    token_type := jsOrStr r.token_type "Bearer"
    expires_in := jsOrNum (parseIntJS r.expires_in) 3600
    expires_at := now + jsOrNum (parseIntJS r.expires_in) 3600 * 1000 }

end NoPostmanDocs

/-- One observable step a command performs around its authorization gate:
console output, process exit, an HTTP request to the payment API carrying
the cached token, or a run of the authentication flow.  No command
constructor of this development ever emits `ranAuthentication`: the
sources contain no call of `authenticate()` outside the `auth`
subcommand, and the constructor exists so that "never silently
re-authenticates" is expressible. -/
inductive Effect where
  | printedError (msg : String)
  | printedInfo (msg : String)
  | exited (code : Nat)
  | apiRequest (token : JsonVal)
  | ranAuthentication

namespace NoPostmanDocs

/-- The authorization gate of `createPayment` in variant A (lines
343-350): `loadToken()`; on `null` print the error and the instruction to
run the auth command and `process.exit(1)`; otherwise proceed to issue the
payment request with the cached token.  The payment arguments (amount,
card details, ...) only shape the request issued after the gate and are
abstracted into `apiRequest`. -/
def createPayment (s : FsState) (now : Int) : List Effect :=
  match loadToken s now with
  | none => [.printedError "\n✗ Not authenticated",
             .printedInfo "Please run: moneris-cli-no-postman auth",
             .exited 1]
  | some tok => [.apiRequest tok]

/-- The authorization gate of `getPayment` in variant A (lines 455-461):
identical to `createPayment`'s gate. -/
def getPayment (s : FsState) (now : Int) : List Effect :=
  match loadToken s now with
  | none => [.printedError "\n✗ Not authenticated",
             .printedInfo "Please run: moneris-cli-no-postman auth",
             .exited 1]
  | some tok => [.apiRequest tok]

/-- The authorization gate of `voidPayment` in variant A (lines 528-534):
identical to `createPayment`'s gate. -/
def voidPayment (s : FsState) (now : Int) : List Effect :=
  match loadToken s now with
  | none => [.printedError "\n✗ Not authenticated",
             .printedInfo "Please run: moneris-cli-no-postman auth",
             .exited 1]
  | some tok => [.apiRequest tok]

end NoPostmanDocs

namespace Postman

/-- The authorization gate of `listPayments` in variant C (lines
437-444): `loadToken()`; on `null` print the error and the instruction
`Please run: moneris-cli auth` and `process.exit(1)`; otherwise issue the
list request with the cached token. -/
def listPayments (s : FsState) (now : Int) : List Effect :=
  match loadToken s now with
  | none => [.printedError "\n✗ Not authenticated",
             .printedInfo "Please run: moneris-cli auth",
             .exited 1]
  | some tok => [.apiRequest tok]

end Postman

/-! Basic evaluation lemmas shared by the claim theorems. -/

/-- Reading the `expires_at` field back out of a serialized token. -/
theorem jlookup_tokenToJson (t : AuthToken) :
    jlookup "expires_at" (tokenToJson t) = some (.jnum t.expires_at) := by
  simp [jlookup, tokenToJson, lookupField]

/-- A successful `saveToken` leaves exactly one possible state: directory
present, slot holding the serialized token, writes still permitted. -/
theorem saveToken_ok (t : AuthToken) (s s' : FsState)
    (h : NoPostmanDocs.saveToken t s = .ok s') :
    s' = ⟨true, some (.wellFormed (tokenToJson t)), true⟩ := by
  obtain ⟨d, sl, w⟩ := s
  cases d <;> cases w <;>
    simp [NoPostmanDocs.saveToken, NoPostmanDocs.ensureConfigDir] at h <;>
    simp [← h]

/-- Variant A's `loadToken` on a slot holding a serialized token reduces
to the 60-second-buffer expiry test. -/
theorem loadToken_serialized (d w : Bool) (t : AuthToken) (now : Int) :
    NoPostmanDocs.loadToken ⟨d, some (.wellFormed (tokenToJson t)), w⟩ now =
      if t.expires_at - 60000 ≤ now then none else some (tokenToJson t) := by
  show (if jsGe now (jsSub (toNumber (jlookup "expires_at" (tokenToJson t))) (.fin 60000))
          then none else some (tokenToJson t)) = _
  rw [jlookup_tokenToJson]
  simp only [toNumber, jsSub, jsGe, decide_eq_true_eq]
  by_cases hc : t.expires_at - 60000 ≤ now
  · have hc' : ((t.expires_at : ℚ) - 60000 ≤ (now : ℚ)) := by exact_mod_cast hc
    rw [if_pos hc', if_pos hc]
  · have hc' : ¬((t.expires_at : ℚ) - 60000 ≤ (now : ℚ)) := by exact_mod_cast hc
    rw [if_neg hc', if_neg hc]

/-- Variant B's `loadToken` on a slot holding a serialized token reduces
to the bufferless expiry test. -/
theorem loadToken_serialized_general (d w : Bool) (t : AuthToken) (now : Int) :
    NoPostmanGeneral.loadToken ⟨d, some (.wellFormed (tokenToJson t)), w⟩ now =
      if t.expires_at ≤ now then none else some (tokenToJson t) := by
  show (if jsGe now (toNumber (jlookup "expires_at" (tokenToJson t)))
          then none else some (tokenToJson t)) = _
  rw [jlookup_tokenToJson]
  simp only [toNumber, jsGe, decide_eq_true_eq]
  by_cases hc : t.expires_at ≤ now
  · have hc' : ((t.expires_at : ℚ) ≤ (now : ℚ)) := by exact_mod_cast hc
    rw [if_pos hc', if_pos hc]
  · have hc' : ¬((t.expires_at : ℚ) ≤ (now : ℚ)) := by exact_mod_cast hc
    rw [if_neg hc', if_neg hc]

/-- Variant C's `loadToken` on a slot holding a serialized token reduces
to the bufferless expiry test. -/
theorem loadToken_serialized_postman (d w : Bool) (t : AuthToken) (now : Int) :
    Postman.loadToken ⟨d, some (.wellFormed (tokenToJson t)), w⟩ now =
      if t.expires_at ≤ now then none else some (tokenToJson t) := by
  show (if jsGe now (toNumber (jlookup "expires_at" (tokenToJson t)))
          then none else some (tokenToJson t)) = _
  rw [jlookup_tokenToJson]
  simp only [toNumber, jsGe, decide_eq_true_eq]
  by_cases hc : t.expires_at ≤ now
  · have hc' : ((t.expires_at : ℚ) ≤ (now : ℚ)) := by exact_mod_cast hc
    rw [if_pos hc', if_pos hc]
  · have hc' : ¬((t.expires_at : ℚ) ≤ (now : ℚ)) := by exact_mod_cast hc
    rw [if_neg hc', if_neg hc]

/-- Discriminator: does an effect issue an HTTP request to the payment
API? -/
def issuesApiRequest : Effect → Bool
  | .apiRequest _ => true
  | _ => false

/-- Discriminator: does an effect run the authentication flow? -/
def runsAuthentication : Effect → Bool
  | .ranAuthentication => true
  | _ => false

/-- Claim C1: a token saved at time T with expiresIn = E seconds (so
`expires_at = T + E * 1000` epoch ms) is returned by `load()` exactly
while `now < T + E*1000 - 60000`, i.e. Absent from 60 seconds (the
margin) before expiry onward, and usable strictly before that point. -/
theorem c1_expiry_margin (t : AuthToken) (s s' : FsState) (T E now : Int)
    (hE : t.expires_at = T + E * 1000)
    (hs : NoPostmanDocs.saveToken t s = .ok s') :
    NoPostmanDocs.loadToken s' now =
      if T + E * 1000 - 60000 ≤ now then none else some (tokenToJson t) := by
  rw [saveToken_ok t s s' hs, loadToken_serialized, hE]

/-- Witness for C1, the spec's own scenario: margin 60 s, token issued at
T = 0 with expiresIn = 3600, so expires_at = 3600000 ms.  At
now = 3541000 ms (59 s before expiry) the token is Absent; at
now = 3539000 ms (61 s before expiry) it is returned. -/
theorem c1_expiry_margin_witness :
    NoPostmanDocs.loadToken
      ⟨true, some (.wellFormed (tokenToJson ⟨"tok", "Bearer", 3600, 3600000⟩)), true⟩
      3541000 = none ∧
    NoPostmanDocs.loadToken
      ⟨true, some (.wellFormed (tokenToJson ⟨"tok", "Bearer", 3600, 3600000⟩)), true⟩
      3539000 = some (tokenToJson ⟨"tok", "Bearer", 3600, 3600000⟩) := by
  constructor
  · have h := c1_expiry_margin ⟨"tok", "Bearer", 3600, 3600000⟩ ⟨true, none, true⟩
      ⟨true, some (.wellFormed (tokenToJson ⟨"tok", "Bearer", 3600, 3600000⟩)), true⟩
      0 3600 3541000 (by decide) rfl
    simpa using h
  · have h := c1_expiry_margin ⟨"tok", "Bearer", 3600, 3600000⟩ ⟨true, none, true⟩
      ⟨true, some (.wellFormed (tokenToJson ⟨"tok", "Bearer", 3600, 3600000⟩)), true⟩
      0 3600 3539000 (by decide) rfl
    simpa using h

/-- Claim C2: `save(t)` followed immediately by `load()` with the clock
unchanged and `now` still before the expiry-minus-margin point returns a
value equal to the saved token, unchanged (round-trip); serialization is
injective, so the returned value determines the token. -/
theorem c2_roundtrip (t : AuthToken) (s s' : FsState) (now : Int)
    (hs : NoPostmanDocs.saveToken t s = .ok s')
    (hnow : now < t.expires_at - 60000) :
    NoPostmanDocs.loadToken s' now = some (tokenToJson t) ∧
    ∀ u : AuthToken, tokenToJson u = tokenToJson t → u = t := by
  constructor
  · rw [saveToken_ok t s s' hs, loadToken_serialized, if_neg (by omega)]
  · intro u h
    cases u
    cases t
    simp_all [tokenToJson]

/-- Witness for C2: a token with expires_at = 3600000 saved into an empty
filesystem (directory absent, so `save` creates it) and loaded at
now = 0 comes back unchanged. -/
theorem c2_roundtrip_witness :
    NoPostmanDocs.loadToken
      ⟨true, some (.wellFormed (tokenToJson ⟨"tok", "Bearer", 3600, 3600000⟩)), true⟩
      0 = some (tokenToJson ⟨"tok", "Bearer", 3600, 3600000⟩) :=
  (c2_roundtrip ⟨"tok", "Bearer", 3600, 3600000⟩ ⟨false, none, true⟩
    ⟨true, some (.wellFormed (tokenToJson ⟨"tok", "Bearer", 3600, 3600000⟩)), true⟩
    0 rfl (by decide)).1

/-- Claim C3: `load()` returns Absent, and never throws (it is a total
function into `Option`, the try/catch made explicit), both when the slot
was never written and when it holds corrupted, non-parsable content; and
an expired token gives the same `none`, so the caller cannot tell the
three cases apart. -/
theorem c3_absent_and_corrupt (now : Int) (d w : Bool) :
    NoPostmanDocs.loadToken ⟨d, none, w⟩ now = none ∧
    NoPostmanDocs.loadToken ⟨d, some .malformed, w⟩ now = none ∧
    NoPostmanDocs.loadToken
      ⟨d, some (.wellFormed (tokenToJson ⟨"tok", "Bearer", 3600, now⟩)), w⟩ now = none := by
  refine ⟨rfl, rfl, ?_⟩
  rw [loadToken_serialized, if_pos (show now - 60000 ≤ now by omega)]

/-- Claim C6: `save(token)` never fails silently: when the filesystem
denies the write, `saveToken` surfaces a `StorageError` (an `Except.error`
value, distinct by type from the `Absent` of `load`); on success it
serializes the whole token — including the computed `expires_at` — to the
single slot and has created the storage directory. -/
theorem c6_save_never_silent (t : AuthToken) (d : Bool) (sl : Option FileData) :
    NoPostmanDocs.saveToken t ⟨d, sl, false⟩ = .error .writeDenied ∧
    NoPostmanDocs.saveToken t ⟨d, sl, true⟩ =
      .ok ⟨true, some (.wellFormed (tokenToJson t)), true⟩ := by
  cases d <;> exact ⟨rfl, rfl⟩

/-- Claim C7: every token built by a successful `authenticate` call
satisfies `expires_at = issuedAt + expires_in * 1000` (issuedAt being the
`Date.now()` of issuance, expires_in in seconds); the serialized form
carries exactly that `expires_at`, and `saveToken` persists exactly that
serialized form. -/
theorem c7_expires_at_invariant (r : OAuthResponse) (now : Int) :
    (NoPostmanDocs.mkAuthToken r now).expires_at =
      now + (NoPostmanDocs.mkAuthToken r now).expires_in * 1000 ∧
    jlookup "expires_at" (tokenToJson (NoPostmanDocs.mkAuthToken r now)) =
      some (.jnum (now + (NoPostmanDocs.mkAuthToken r now).expires_in * 1000)) ∧
    ∀ (d : Bool) (sl : Option FileData),
      NoPostmanDocs.saveToken (NoPostmanDocs.mkAuthToken r now) ⟨d, sl, true⟩ =
        .ok ⟨true, some (.wellFormed (tokenToJson (NoPostmanDocs.mkAuthToken r now))), true⟩ := by
  refine ⟨rfl, ?_, fun d sl => ?_⟩
  · rw [jlookup_tokenToJson]
    rfl
  · cases d <;> rfl

/-- Claim C5: for every command requiring authorization — create-payment,
get-payment and void-payment of the no-postman docs variant, and
list-payments of the Postman variant — when its `loadToken()` returns
Absent the command prints the instruction to run the auth command and
exits with status 1 (non-zero), having issued no API request and run no
authentication flow on the user's behalf. -/
theorem c5_absent_halts_commands (s : FsState) (now : Int)
    (h1 : NoPostmanDocs.loadToken s now = none)
    (h2 : Postman.loadToken s now = none) :
    NoPostmanDocs.createPayment s now =
      [.printedError "\n✗ Not authenticated",
       .printedInfo "Please run: moneris-cli-no-postman auth", .exited 1] ∧
    NoPostmanDocs.getPayment s now =
      [.printedError "\n✗ Not authenticated",
       .printedInfo "Please run: moneris-cli-no-postman auth", .exited 1] ∧
    NoPostmanDocs.voidPayment s now =
      [.printedError "\n✗ Not authenticated",
       .printedInfo "Please run: moneris-cli-no-postman auth", .exited 1] ∧
    Postman.listPayments s now =
      [.printedError "\n✗ Not authenticated",
       .printedInfo "Please run: moneris-cli auth", .exited 1] ∧
    (NoPostmanDocs.createPayment s now ++ NoPostmanDocs.getPayment s now ++
      NoPostmanDocs.voidPayment s now ++ Postman.listPayments s now).all
      (fun e => !issuesApiRequest e && !runsAuthentication e) = true := by
  have hc : NoPostmanDocs.createPayment s now =
      [.printedError "\n✗ Not authenticated",
       .printedInfo "Please run: moneris-cli-no-postman auth", .exited 1] := by
    simp [NoPostmanDocs.createPayment, h1]
  have hg : NoPostmanDocs.getPayment s now =
      [.printedError "\n✗ Not authenticated",
       .printedInfo "Please run: moneris-cli-no-postman auth", .exited 1] := by
    simp [NoPostmanDocs.getPayment, h1]
  have hv : NoPostmanDocs.voidPayment s now =
      [.printedError "\n✗ Not authenticated",
       .printedInfo "Please run: moneris-cli-no-postman auth", .exited 1] := by
    simp [NoPostmanDocs.voidPayment, h1]
  have hl : Postman.listPayments s now =
      [.printedError "\n✗ Not authenticated",
       .printedInfo "Please run: moneris-cli auth", .exited 1] := by
    simp [Postman.listPayments, h2]
  refine ⟨hc, hg, hv, hl, ?_⟩
  rw [hc, hg, hv, hl]
  rfl

/-- Witness for C5: with an empty token slot at now = 0 every gated
command halts with the not-authenticated trace. -/
theorem c5_absent_halts_commands_witness :
    NoPostmanDocs.createPayment ⟨true, none, true⟩ 0 =
      [.printedError "\n✗ Not authenticated",
       .printedInfo "Please run: moneris-cli-no-postman auth", .exited 1] ∧
    Postman.listPayments ⟨true, none, true⟩ 0 =
      [.printedError "\n✗ Not authenticated",
       .printedInfo "Please run: moneris-cli auth", .exited 1] := by
  have h := c5_absent_halts_commands ⟨true, none, true⟩ 0 rfl rfl
  exact ⟨h.1, h.2.2.2.1⟩

/-- Claim C8: `save` called twice overwrites the single slot wholesale:
after `save(tokenA)` then `save(tokenB)`, the slot holds exactly the
serialization of tokenB, `load()` reflects tokenB only, and the resulting
state is a function of tokenB alone (any successful `save(tokenB)` from
any prior state yields the same state), so no trace of tokenA remains. -/
theorem c8_overwrite (tA tB : AuthToken) (s s1 s2 : FsState) (now : Int)
    (_h1 : NoPostmanDocs.saveToken tA s = .ok s1)
    (h2 : NoPostmanDocs.saveToken tB s1 = .ok s2) :
    s2.slot = some (.wellFormed (tokenToJson tB)) ∧
    NoPostmanDocs.loadToken s2 now =
      (if tB.expires_at - 60000 ≤ now then none else some (tokenToJson tB)) ∧
    ∀ s1' s2' : FsState, NoPostmanDocs.saveToken tB s1' = .ok s2' → s2' = s2 := by
  have e2 := saveToken_ok tB s1 s2 h2
  subst e2
  exact ⟨rfl, loadToken_serialized true true tB now,
    fun s1' s2' h => saveToken_ok tB s1' s2' h⟩

/-- Witness for C8: saving token "a" (expiring at 60000) then token "b"
(expiring at 3600000) into an initially empty filesystem leaves a state
from which `load()` at now = 0 returns token "b". -/
theorem c8_overwrite_witness :
    NoPostmanDocs.loadToken
      ⟨true, some (.wellFormed (tokenToJson ⟨"b", "Bearer", 3600, 3600000⟩)), true⟩
      0 = some (tokenToJson ⟨"b", "Bearer", 3600, 3600000⟩) := by
  have h := (c8_overwrite ⟨"a", "Bearer", 60, 60000⟩ ⟨"b", "Bearer", 3600, 3600000⟩
    ⟨false, none, true⟩
    ⟨true, some (.wellFormed (tokenToJson ⟨"a", "Bearer", 60, 60000⟩)), true⟩
    ⟨true, some (.wellFormed (tokenToJson ⟨"b", "Bearer", 3600, 3600000⟩)), true⟩
    0 rfl rfl).2.1
  simpa using h

/-- Claim C9: the three variants disagree on the token-expiry buffer: on
a slot holding a serialized token, variant A's `loadToken` rejects from
60000 ms before the stored `expires_at`, variants B and C reject only at
or after `expires_at`; hence there are a stored token and a clock value
(expires_at = 100000 ms, now = 50000 ms) on which variant A returns
Absent while B and C return the token. -/
theorem c9_variant_buffers_disagree :
    (∀ (d w : Bool) (t : AuthToken) (now : Int),
      NoPostmanDocs.loadToken ⟨d, some (.wellFormed (tokenToJson t)), w⟩ now =
        if t.expires_at - 60000 ≤ now then none else some (tokenToJson t)) ∧
    (∀ (d w : Bool) (t : AuthToken) (now : Int),
      NoPostmanGeneral.loadToken ⟨d, some (.wellFormed (tokenToJson t)), w⟩ now =
        if t.expires_at ≤ now then none else some (tokenToJson t)) ∧
    (∀ (d w : Bool) (t : AuthToken) (now : Int),
      Postman.loadToken ⟨d, some (.wellFormed (tokenToJson t)), w⟩ now =
        if t.expires_at ≤ now then none else some (tokenToJson t)) ∧
    ∃ (t : AuthToken) (now : Int),
      NoPostmanDocs.loadToken ⟨true, some (.wellFormed (tokenToJson t)), true⟩ now = none ∧
      NoPostmanGeneral.loadToken ⟨true, some (.wellFormed (tokenToJson t)), true⟩ now =
        some (tokenToJson t) ∧
      Postman.loadToken ⟨true, some (.wellFormed (tokenToJson t)), true⟩ now =
        some (tokenToJson t) := by
  refine ⟨loadToken_serialized, loadToken_serialized_general, loadToken_serialized_postman,
    ⟨"tok", "Bearer", 3600, 100000⟩, 50000, ?_, ?_, ?_⟩
  · rw [loadToken_serialized]
    simp
  · rw [loadToken_serialized_general]
    simp
  · rw [loadToken_serialized_postman]
    simp

/-- Counterexample to claim C4: a slot whose read fails (permission
denied) makes `loadToken` return `none` at now = 1000 — exactly the value
returned for a never-written slot — so a storage-layer read failure is
NOT surfaced distinctly from Absent. -/
theorem c4_counterexample :
    NoPostmanDocs.loadToken ⟨true, some .unreadable, true⟩ 1000 = none ∧
    NoPostmanDocs.loadToken ⟨true, none, true⟩ 1000 = none :=
  ⟨rfl, rfl⟩

/-- Claim C4 as amended: storage-layer read errors during `load` are
swallowed by `loadToken`'s catch-all and collapse into Absent,
indistinguishable from "please log in"; only write failures during
`save` surface as a distinct storage error. -/
theorem c4_read_errors_collapse (s : FsState) (now : Int)
    (h : s.slot = some .unreadable) :
    NoPostmanDocs.loadToken s now = none ∧
    ∀ (t : AuthToken) (d : Bool) (sl : Option FileData),
      NoPostmanDocs.saveToken t ⟨d, sl, false⟩ = .error .writeDenied := by
  obtain ⟨d, sl, w⟩ := s
  dsimp only at h
  subst h
  exact ⟨rfl, fun t d' sl' => by cases d' <;> rfl⟩

/-- Witness for the amended C4: the unreadable slot at now = 0 loads as
`none`. -/
theorem c4_read_errors_collapse_witness :
    NoPostmanDocs.loadToken ⟨true, some .unreadable, true⟩ 0 = none :=
  (c4_read_errors_collapse ⟨true, some .unreadable, true⟩ 0 rfl).1

